import Mathlib

/-!
Shallow embedding of the password-reset subsystem of the QuickCart backend
(src/api/index.js).  The repository ships two variants of the same server file;
where their reset flows differ (expiry timer, provider order, failure response)
both are embedded, suffixed `V1` (first variant, lines 1-389) and `V2`
(second variant, lines 390-1027).

The in-memory `resetCodes` Map is modelled as an association list from email to
code with Map semantics (each key bound at most once along reachable states);
`mapGet`, `mapSet`, `mapDelete` embed `Map.get`, `Map.set`, `Map.delete`.
-/

namespace QuickCart

/-- The reset-code store: `const resetCodes = new Map()`, keyed by email,
holding the 6-digit code string. -/
abbrev Store := List (String × String)

/-- Embeds `resetCodes.get(email)`. -/
def mapGet (st : Store) (k : String) : Option String :=
  match st with
  | [] => none
  | (k₁, v) :: rest => if k₁ = k then some v else mapGet rest k

/-- Embeds `resetCodes.set(email, code)`: replaces the binding if the key is
present, otherwise appends it. -/
def mapSet (st : Store) (k v : String) : Store :=
  match st with
  | [] => [(k, v)]
  | (k₁, v₁) :: rest => if k₁ = k then (k, v) :: rest else (k₁, v₁) :: mapSet rest k v

/-- Embeds `resetCodes.delete(email)`. -/
def mapDelete (st : Store) (k : String) : Store :=
  match st with
  | [] => []
  | (k₁, v₁) :: rest => if k₁ = k then rest else (k₁, v₁) :: mapDelete rest k

/-- The keys (emails) bound in the store. -/
def storeKeys (st : Store) : List String := st.map Prod.fst

/-- The Map invariant: each email is bound at most once. -/
def atMostOneCodePerEmail (st : Store) : Prop := (storeKeys st).Nodup

instance (st : Store) : Decidable (atMostOneCodePerEmail st) := by
  unfold atMostOneCodePerEmail; infer_instance

theorem storeKeys_nil : storeKeys ([] : Store) = [] := rfl

theorem storeKeys_cons (k v : String) (tl : Store) :
    storeKeys ((k, v) :: tl) = k :: storeKeys tl := rfl

theorem mapGet_mapSet_self (st : Store) (k v : String) :
    mapGet (mapSet st k v) k = some v := by
  induction st with
  | nil => simp [mapSet, mapGet]
  | cons hd tl ih =>
    obtain ⟨k₁, v₁⟩ := hd
    by_cases h : k₁ = k <;> simp [mapSet, mapGet, h, ih]

theorem mapGet_mapSet_ne (st : Store) (k v a : String) (h : a ≠ k) :
    mapGet (mapSet st k v) a = mapGet st a := by
  induction st with
  | nil =>
    have h₀ : ¬(k = a) := fun h₁ => h h₁.symm
    simp [mapSet, mapGet, h₀]
  | cons hd tl ih =>
    obtain ⟨k₁, v₁⟩ := hd
    by_cases h₁ : k₁ = k
    · subst h₁
      have h₀ : ¬(k₁ = a) := fun h₂ => h h₂.symm
      simp [mapSet, mapGet, h₀]
    · simp [mapSet, mapGet, h₁, ih]

theorem mapGet_eq_none_of_not_mem (st : Store) (k : String)
    (h : k ∉ storeKeys st) : mapGet st k = none := by
  induction st with
  | nil => rfl
  | cons hd tl ih =>
    obtain ⟨k₁, v₁⟩ := hd
    rw [storeKeys_cons, List.mem_cons] at h
    push_neg at h
    have h₀ : ¬(k₁ = k) := fun h₂ => h.1 h₂.symm
    simp [mapGet, h₀, ih h.2]

theorem mapGet_mapDelete_self (st : Store) (k : String)
    (h : atMostOneCodePerEmail st) : mapGet (mapDelete st k) k = none := by
  induction st with
  | nil => rfl
  | cons hd tl ih =>
    obtain ⟨k₁, v₁⟩ := hd
    unfold atMostOneCodePerEmail at h
    rw [storeKeys_cons, List.nodup_cons] at h
    by_cases h₁ : k₁ = k
    · subst h₁
      rw [show mapDelete ((k₁, v₁) :: tl) k₁ = tl from by simp [mapDelete]]
      exact mapGet_eq_none_of_not_mem tl k₁ h.1
    · rw [show mapDelete ((k₁, v₁) :: tl) k = (k₁, v₁) :: mapDelete tl k from by
        simp [mapDelete, h₁]]
      rw [show mapGet ((k₁, v₁) :: mapDelete tl k) k
          = if k₁ = k then some v₁ else mapGet (mapDelete tl k) k from rfl]
      rw [if_neg h₁]
      exact ih h.2

theorem mem_storeKeys_mapSet (st : Store) (k v a : String)
    (h : a ∈ storeKeys (mapSet st k v)) : a ∈ storeKeys st ∨ a = k := by
  induction st with
  | nil =>
    rw [show mapSet [] k v = [(k, v)] from rfl, storeKeys_cons, List.mem_cons] at h
    rcases h with h | h
    · exact Or.inr h
    · rw [storeKeys_nil] at h; exact absurd h (List.not_mem_nil a)
  | cons hd tl ih =>
    obtain ⟨k₁, v₁⟩ := hd
    by_cases h₁ : k₁ = k
    · subst h₁
      rw [show mapSet ((k₁, v₁) :: tl) k₁ v = (k₁, v) :: tl from by simp [mapSet],
        storeKeys_cons, List.mem_cons] at h
      rcases h with h | h
      · exact Or.inr h
      · exact Or.inl (by rw [storeKeys_cons, List.mem_cons]; exact Or.inr h)
    · rw [show mapSet ((k₁, v₁) :: tl) k v = (k₁, v₁) :: mapSet tl k v from by
        simp [mapSet, h₁], storeKeys_cons, List.mem_cons] at h
      rcases h with h | h
      · exact Or.inl (by rw [storeKeys_cons, List.mem_cons]; exact Or.inl h)
      · rcases ih h with h₂ | h₂
        · exact Or.inl (by rw [storeKeys_cons, List.mem_cons]; exact Or.inr h₂)
        · exact Or.inr h₂

theorem mapSet_preserves_nodup (st : Store) (k v : String)
    (h : atMostOneCodePerEmail st) : atMostOneCodePerEmail (mapSet st k v) := by
  induction st with
  | nil => simp [mapSet, atMostOneCodePerEmail, storeKeys]
  | cons hd tl ih =>
    obtain ⟨k₁, v₁⟩ := hd
    unfold atMostOneCodePerEmail at h
    rw [storeKeys_cons, List.nodup_cons] at h
    by_cases h₁ : k₁ = k
    · subst h₁
      rw [show mapSet ((k₁, v₁) :: tl) k₁ v = (k₁, v) :: tl from by simp [mapSet]]
      unfold atMostOneCodePerEmail
      rw [storeKeys_cons, List.nodup_cons]
      exact h
    · have htl := ih h.2
      rw [show mapSet ((k₁, v₁) :: tl) k v = (k₁, v₁) :: mapSet tl k v from by
        simp [mapSet, h₁]]
      unfold atMostOneCodePerEmail
      rw [storeKeys_cons, List.nodup_cons]
      refine ⟨?_, htl⟩
      intro hc
      rcases mem_storeKeys_mapSet tl k v k₁ hc with h₂ | h₂
      · exact h.1 h₂
      · exact h₁ h₂

theorem mapDelete_sublist (st : Store) (k : String) :
    List.Sublist (mapDelete st k) st := by
  induction st with
  | nil => simp [mapDelete]
  | cons hd tl ih =>
    obtain ⟨k₁, v₁⟩ := hd
    by_cases h₁ : k₁ = k
    · rw [show mapDelete ((k₁, v₁) :: tl) k = tl from by simp [mapDelete, h₁]]
      exact List.sublist_cons_self (k₁, v₁) tl
    · rw [show mapDelete ((k₁, v₁) :: tl) k = (k₁, v₁) :: mapDelete tl k from by
        simp [mapDelete, h₁]]
      exact List.Sublist.cons₂ (k₁, v₁) ih

theorem mapDelete_preserves_nodup (st : Store) (k : String)
    (h : atMostOneCodePerEmail st) : atMostOneCodePerEmail (mapDelete st k) :=
  List.Nodup.sublist (List.Sublist.map Prod.fst (mapDelete_sublist st k)) h

/-- A draw of `Math.random()`: a rational in `[0, 1)`, given as `num / den`
with `num < den`. -/
structure Rand where
  num : Nat
  den : Nat
  isLt : num < den

/-- The numeric value `Math.floor(100000 + Math.random() * 900000)`:
the additive constant is an integer, so the floor distributes onto the
product, which for `num / den` is natural-number division. -/
def jsCode (r : Rand) : Nat := 100000 + r.num * 900000 / r.den

/-- The ASCII character of a decimal digit. -/
def digitChar (d : Nat) : Char := Char.ofNat (48 + d)

/-- Fuelled most-significant-first decimal conversion, the core of the
embedding of `Number.prototype.toString` on integers. -/
def toDecimalAux : Nat → Nat → List Char → List Char
  | 0, _, acc => acc
  | fuel + 1, n, acc =>
    if n < 10 then digitChar n :: acc
    else toDecimalAux fuel (n / 10) (digitChar (n % 10) :: acc)

/-- Embeds `.toString()` on a nonnegative integer. -/
def natToString (n : Nat) : String := String.mk (toDecimalAux (n + 1) n [])

/-- The code string produced at src/api/index.js lines 171 and 847:
`Math.floor(100000 + Math.random() * 900000).toString()`. -/
def jsCodeString (r : Rand) : String := natToString (jsCode r)

theorem toDecimalAux_eq (fuel : Nat) : ∀ n acc, 0 < n → n < 10 ^ fuel →
    toDecimalAux fuel n acc = ((Nat.digits 10 n).reverse.map digitChar) ++ acc := by
  induction fuel with
  | zero => intro n acc hn hlt; omega
  | succ fuel ih =>
    intro n acc hn hlt
    by_cases h10 : n < 10
    · have hd : Nat.digits 10 n = [n] := by
        rw [Nat.digits_def' (by norm_num : 1 < 10) hn, Nat.mod_eq_of_lt h10,
          Nat.div_eq_of_lt h10, Nat.digits_zero]
      rw [show toDecimalAux (fuel + 1) n acc = digitChar n :: acc from by
        simp [toDecimalAux, h10]]
      simp [hd]
    · have hq : 0 < n / 10 := Nat.div_pos (by omega) (by norm_num)
      have hqlt : n / 10 < 10 ^ fuel := by
        rw [Nat.div_lt_iff_lt_mul (by norm_num : 0 < 10)]
        calc n < 10 ^ (fuel + 1) := hlt
          _ = 10 ^ fuel * 10 := by ring
      rw [show toDecimalAux (fuel + 1) n acc
          = toDecimalAux fuel (n / 10) (digitChar (n % 10) :: acc) from by
        simp [toDecimalAux, h10]]
      rw [ih (n / 10) (digitChar (n % 10) :: acc) hq hqlt]
      rw [Nat.digits_def' (by norm_num : 1 < 10) hn]
      simp

theorem natToString_eq (n : Nat) (hn : 0 < n) :
    natToString n = String.mk ((Nat.digits 10 n).reverse.map digitChar) := by
  unfold natToString
  rw [toDecimalAux_eq (n + 1) n [] hn
    (lt_of_lt_of_le (Nat.lt_pow_self (by norm_num) n)
      (Nat.pow_le_pow_right (by norm_num) (Nat.le_succ n)))]
  simp

theorem natToString_length (n : Nat) (h1 : 10 ^ 5 ≤ n) (h2 : n < 10 ^ 6) :
    (natToString n).length = 6 := by
  rw [natToString_eq n (lt_of_lt_of_le (by norm_num) h1)]
  have hlen : (Nat.digits 10 n).length = 6 := by
    rw [Nat.digits_len 10 n (by norm_num) (by positivity)]
    rw [Nat.log_eq_of_pow_le_of_lt_pow h1 h2]
  simp [String.length, hlen]

theorem digitChar_isDigit (d : Nat) (h : d < 10) : (digitChar d).isDigit = true := by
  interval_cases d <;> decide

theorem natToString_all_digits (n : Nat) (hn : 0 < n) :
    ∀ c ∈ (natToString n).data, c.isDigit = true := by
  rw [natToString_eq n hn]
  intro c hc
  simp only [String.mk, List.mem_map, List.mem_reverse] at hc
  obtain ⟨d, hd, hcd⟩ := hc
  rw [← hcd]
  exact digitChar_isDigit d (Nat.digits_lt_base (by norm_num) hd)

theorem jsCode_lower (r : Rand) : 100000 ≤ jsCode r := Nat.le_add_right 100000 _

theorem jsCode_upper (r : Rand) : jsCode r ≤ 999999 := by
  unfold jsCode
  have hd : 0 < r.den := lt_of_le_of_lt (Nat.zero_le _) r.isLt
  have h1 : r.num * 900000 / r.den < 900000 := by
    rw [Nat.div_lt_iff_lt_mul hd]
    calc r.num * 900000 < r.den * 900000 :=
          mul_lt_mul_of_pos_right r.isLt (by norm_num)
      _ = 900000 * r.den := mul_comm _ _
  omega

theorem jsCodeString_length (r : Rand) : (jsCodeString r).length = 6 :=
  natToString_length (jsCode r)
    (by have := jsCode_lower r; norm_num; omega)
    (by have := jsCode_upper r; norm_num; omega)

theorem jsCodeString_ne_empty (r : Rand) : jsCodeString r ≠ "" := by
  intro h
  have hl := jsCodeString_length r
  rw [h] at hl
  exact absurd hl (by decide)

/-- The two email providers: Resend (transactional HTTPS API) and Gmail via
nodemailer (SMTP). -/
inductive Provider where
  | resend : Provider
  | gmail : Provider
deriving DecidableEq, Repr

/-- Which providers are configured: `process.env.EMAIL_USER && process.env.EMAIL_PASS`
for Gmail, a non-null `resend` object (RESEND_API_KEY present) for Resend. -/
structure EmailCfg where
  gmailConfigured : Bool
  resendConfigured : Bool
deriving DecidableEq, Repr

/-- Variant 1 send chain (src/api/index.js lines 193-237): try Gmail SMTP
first when configured; if that did not set `emailSent`, try Resend.
Returns the providers attempted, in order, and the final `emailSent`. -/
def sendChainV1 (cfg : EmailCfg) (gmailOk resendOk : Bool) : List Provider × Bool :=
  let first : List Provider × Bool :=
    if cfg.gmailConfigured then ([Provider.gmail], gmailOk) else ([], false)
  if first.2 then first
  else if cfg.resendConfigured then (first.1 ++ [Provider.resend], resendOk)
  else (first.1, false)

/-- Variant 2 send chain (src/api/index.js lines 869-921): try Resend first
when configured; if that did not set `emailSent`, fall back to Gmail SMTP. -/
def sendChainV2 (cfg : EmailCfg) (resendOk gmailOk : Bool) : List Provider × Bool :=
  let first : List Provider × Bool :=
    if cfg.resendConfigured then ([Provider.resend], resendOk) else ([], false)
  if first.2 then first
  else if cfg.gmailConfigured then (first.1 ++ [Provider.gmail], gmailOk)
  else (first.1, false)

/-- Observable outcome of `POST /api/forgot-password`: HTTP status, resulting
store, the `resetCode` field of the response body if present, and the
providers attempted. -/
structure ForgotOutcome where
  status : Nat
  store : Store
  devCode : Option String
  attempts : List Provider
deriving DecidableEq, Repr

/-- Variant 1 of `POST /api/forgot-password` (src/api/index.js lines 163-265).
`userExists` embeds `User.findOne({ email })`, `r` the `Math.random()` draw,
`production` the `NODE_ENV === 'production'` test.  On double delivery
failure it answers 200 with the raw code outside production and 500 in
production. -/
def forgotPasswordV1 (email : String) (userExists : Bool) (r : Rand) (st : Store)
    (cfg : EmailCfg) (gmailOk resendOk production : Bool) : ForgotOutcome :=
  if email = "" then ⟨400, st, none, []⟩
  else if !userExists then ⟨404, st, none, []⟩
  else
    let code := jsCodeString r
    let st₁ := mapSet st email code
    let sent := sendChainV1 cfg gmailOk resendOk
    if sent.2 then ⟨200, st₁, none, sent.1⟩
    else if !production then ⟨200, st₁, some code, sent.1⟩
    else ⟨500, st₁, none, sent.1⟩

/-- Variant 2 of `POST /api/forgot-password` (src/api/index.js lines 827-952).
On double delivery failure it always answers 200 and always includes the raw
code in the response, with no production check. -/
def forgotPasswordV2 (email : String) (userExists : Bool) (r : Rand) (st : Store)
    (cfg : EmailCfg) (resendOk gmailOk : Bool) : ForgotOutcome :=
  if email = "" then ⟨400, st, none, []⟩
  else if !userExists then ⟨404, st, none, []⟩
  else
    let code := jsCodeString r
    let st₁ := mapSet st email code
    let sent := sendChainV2 cfg resendOk gmailOk
    if !sent.2 then ⟨200, st₁, some code, sent.1⟩
    else ⟨200, st₁, none, sent.1⟩

/-- The inline validation of `POST /api/reset-password`:
`const validCode = resetCodes.get(email); if (!validCode || validCode !== code)`.
A missing entry and an empty stored string are both falsy. -/
def validate (st : Store) (email code : String) : Bool :=
  let validCode := (mapGet st email).getD ""
  !(validCode = "") && validCode = code

/-- Observable outcome of `POST /api/reset-password`: HTTP status, resulting
store, and whether the password hash was replaced (`user.save()` ran to
completion). -/
structure ResetOutcome where
  status : Nat
  store : Store
  passwordUpdated : Bool
deriving DecidableEq, Repr

/-- The confirm endpoint `POST /api/reset-password` (identical in both
variants, src/api/index.js lines 269-288 and 955-976).  `userExists` embeds
`User.findOne`; `saveOk` is whether `user.save()` succeeds. -/
def resetPassword (email code newPassword : String) (st : Store)
    (userExists saveOk : Bool) : ResetOutcome :=
  if email = "" || code = "" || newPassword = "" then ⟨400, st, false⟩
  else if !(validate st email code) then ⟨400, st, false⟩
  else if !userExists then ⟨404, st, false⟩
  else if saveOk then ⟨200, mapDelete st email, true⟩
  else ⟨500, st, false⟩

/-- Variant 1 expiry timer callback (src/api/index.js line 175):
`setTimeout(() => resetCodes.delete(email), 10 * 60 * 1000)` — the closure
captures only the email and deletes unconditionally. -/
def expireV1 (email : String) (st : Store) : Store := mapDelete st email

/-- Variant 2 expiry timer callback (src/api/index.js lines 851-856): the
closure captures the email and the code it was armed with, and deletes only
when the stored code still equals that code. -/
def expireV2 (email armedCode : String) (st : Store) : Store :=
  if mapGet st email = some armedCode then mapDelete st email else st

/-- A concrete `Math.random()` draw: `23456 / 900000`, whose code is `123456`. -/
def r0 : Rand := ⟨23456, 900000, by norm_num⟩

/-- A concrete `Math.random()` draw: one half, whose code is `550000`. -/
def randHalf : Rand := ⟨1, 2, by norm_num⟩

/-- A configuration with neither provider configured. -/
def cfgNone : EmailCfg := ⟨false, false⟩

/-- A configuration with both providers configured. -/
def cfgBoth : EmailCfg := ⟨true, true⟩

theorem forgotPasswordV1_store_of_found (email : String) (he : email ≠ "")
    (r : Rand) (st : Store) (cfg : EmailCfg) (g rk p : Bool) :
    (forgotPasswordV1 email true r st cfg g rk p).store
      = mapSet st email (jsCodeString r) := by
  unfold forgotPasswordV1
  simp [he]
  split_ifs <;> rfl

theorem forgotPasswordV2_store_of_found (email : String) (he : email ≠ "")
    (r : Rand) (st : Store) (cfg : EmailCfg) (ro g : Bool) :
    (forgotPasswordV2 email true r st cfg ro g).store
      = mapSet st email (jsCodeString r) := by
  unfold forgotPasswordV2
  simp [he]
  split_ifs <;> rfl

theorem validate_after_issue (st : Store) (email : String) (r : Rand) :
    validate (mapSet st email (jsCodeString r)) email (jsCodeString r) = true := by
  unfold validate
  rw [mapGet_mapSet_self]
  simp [jsCodeString_ne_empty r]

theorem validate_of_get_none (st : Store) (email code : String)
    (h : mapGet st email = none) : validate st email code = false := by
  unfold validate
  rw [h]
  simp

/-- Claim C8: every generated reset code is the decimal string of an integer
in the range 100000 to 999999 inclusive, hence always exactly 6 ASCII
digits.  This holds for every draw of `Math.random()` (a rational in
`[0, 1)`), as used at src/api/index.js lines 171 and 847. -/
theorem C8_code_is_six_decimal_digits (r : Rand) :
    100000 ≤ jsCode r ∧ jsCode r ≤ 999999 ∧
    jsCodeString r = natToString (jsCode r) ∧
    (jsCodeString r).length = 6 ∧
    ∀ c ∈ (jsCodeString r).data, c.isDigit = true :=
  ⟨jsCode_lower r, jsCode_upper r, rfl, jsCodeString_length r,
    natToString_all_digits (jsCode r) (lt_of_lt_of_le (by norm_num) (jsCode_lower r))⟩

/-- Witness for C8 at a concrete draw, whose code is 123456. -/
theorem C8_witness :
    100000 ≤ jsCode r0 ∧ jsCode r0 ≤ 999999 ∧
    jsCodeString r0 = natToString (jsCode r0) ∧
    (jsCodeString r0).length = 6 ∧
    ∀ c ∈ (jsCodeString r0).data, c.isDigit = true :=
  C8_code_is_six_decimal_digits r0

/-- Claim C9: the store maps each email to at most one code, and every
registry operation — issue (`mapSet`, inside both forgot-password variants),
consume (`mapDelete`, inside reset-password), and both expiry-timer
callbacks — preserves that invariant.  `validate` does not touch the store. -/
theorem C9_at_most_one_code_per_email (st : Store)
    (h : atMostOneCodePerEmail st) (email code armedCode newPassword : String)
    (r : Rand) (cfg : EmailCfg) (b₁ b₂ b₃ b₄ b₅ : Bool) :
    atMostOneCodePerEmail (mapSet st email code) ∧
    atMostOneCodePerEmail (mapDelete st email) ∧
    atMostOneCodePerEmail (expireV1 email st) ∧
    atMostOneCodePerEmail (expireV2 email armedCode st) ∧
    atMostOneCodePerEmail (forgotPasswordV1 email b₁ r st cfg b₂ b₃ b₄).store ∧
    atMostOneCodePerEmail (forgotPasswordV2 email b₁ r st cfg b₂ b₃).store ∧
    atMostOneCodePerEmail (resetPassword email code newPassword st b₁ b₅).store := by
  have hset : ∀ c : String, atMostOneCodePerEmail (mapSet st email c) :=
    fun c => mapSet_preserves_nodup st email c h
  have hdel : atMostOneCodePerEmail (mapDelete st email) :=
    mapDelete_preserves_nodup st email h
  refine ⟨hset code, hdel, hdel, ?_, ?_, ?_, ?_⟩
  · unfold expireV2
    split_ifs <;> [exact hdel; exact h]
  · unfold forgotPasswordV1
    split_ifs <;> first
      | exact h
      | (dsimp only; split_ifs <;> exact hset _)
  · unfold forgotPasswordV2
    split_ifs <;> first
      | exact h
      | (dsimp only; split_ifs <;> exact hset _)
  · unfold resetPassword
    split_ifs <;> first | exact h | exact hdel

/-- Witness for C9 at a concrete store satisfying the invariant. -/
theorem C9_witness :
    atMostOneCodePerEmail [("a@b.com", "123456")] ∧
    (atMostOneCodePerEmail (mapSet [("a@b.com", "123456")] "a@b.com" "222222") ∧
    atMostOneCodePerEmail (mapDelete [("a@b.com", "123456")] "a@b.com") ∧
    atMostOneCodePerEmail (expireV1 "a@b.com" [("a@b.com", "123456")]) ∧
    atMostOneCodePerEmail (expireV2 "a@b.com" "123456" [("a@b.com", "123456")]) ∧
    atMostOneCodePerEmail
      (forgotPasswordV1 "a@b.com" true r0 [("a@b.com", "123456")] cfgNone false false false).store ∧
    atMostOneCodePerEmail
      (forgotPasswordV2 "a@b.com" true r0 [("a@b.com", "123456")] cfgNone false false).store ∧
    atMostOneCodePerEmail
      (resetPassword "a@b.com" "222222" "pw" [("a@b.com", "123456")] true false).store) :=
  ⟨by decide,
    C9_at_most_one_code_per_email [("a@b.com", "123456")] (by decide)
      "a@b.com" "222222" "123456" "pw" r0 cfgNone true false false false false⟩

/-- Claim C7: a reset request carrying an email with no registered account is
answered 404 by both variants of `POST /api/forgot-password`, the store is
left unchanged (no code generated or stored), and no code is echoed back. -/
theorem C7_unregistered_email_404 (email : String) (he : email ≠ "") (r : Rand)
    (st : Store) (cfg : EmailCfg) (g rk p ro : Bool) :
    (forgotPasswordV1 email false r st cfg g rk p).status = 404 ∧
    (forgotPasswordV1 email false r st cfg g rk p).store = st ∧
    (forgotPasswordV1 email false r st cfg g rk p).devCode = none ∧
    (forgotPasswordV2 email false r st cfg ro g).status = 404 ∧
    (forgotPasswordV2 email false r st cfg ro g).store = st ∧
    (forgotPasswordV2 email false r st cfg ro g).devCode = none := by
  unfold forgotPasswordV1 forgotPasswordV2
  simp [he]

/-- Claim C1: issuing a reset code for a registered email and immediately
validating that email with the returned code succeeds and the confirm
endpoint accepts it (200); after the successful confirm has consumed the
entry, the same code no longer validates and a second confirm with it is
rejected with 400. -/
theorem C1_issue_validate_consume_once (st : Store)
    (hnd : atMostOneCodePerEmail st) (email newPassword newPassword₂ : String)
    (he : email ≠ "") (hnp : newPassword ≠ "") (hnp₂ : newPassword₂ ≠ "")
    (r : Rand) (cfg : EmailCfg) (g rk p : Bool) :
    validate (forgotPasswordV1 email true r st cfg g rk p).store email
      (jsCodeString r) = true ∧
    (resetPassword email (jsCodeString r) newPassword
      (forgotPasswordV1 email true r st cfg g rk p).store true true).status = 200 ∧
    validate (resetPassword email (jsCodeString r) newPassword
      (forgotPasswordV1 email true r st cfg g rk p).store true true).store email
      (jsCodeString r) = false ∧
    (resetPassword email (jsCodeString r) newPassword₂
      (resetPassword email (jsCodeString r) newPassword
        (forgotPasswordV1 email true r st cfg g rk p).store true true).store
      true true).status = 400 := by
  have hstore := forgotPasswordV1_store_of_found email he r st cfg g rk p
  set code := jsCodeString r with hcode
  have hval : validate (mapSet st email code) email code = true :=
    validate_after_issue st email r
  have hcne : code ≠ "" := jsCodeString_ne_empty r
  have hreset : resetPassword email code newPassword (mapSet st email code) true true
      = ⟨200, mapDelete (mapSet st email code) email, true⟩ := by
    unfold resetPassword
    simp [he, hnp, hcne, hval]
  have hnone : mapGet (mapDelete (mapSet st email code) email) email = none :=
    mapGet_mapDelete_self _ email (mapSet_preserves_nodup st email code hnd)
  have hval₂ : validate (mapDelete (mapSet st email code) email) email code = false :=
    validate_of_get_none _ email code hnone
  have hreset₂ : (resetPassword email code newPassword₂
      (mapDelete (mapSet st email code) email) true true).status = 400 := by
    unfold resetPassword
    simp [he, hnp₂, hcne, hval₂]
  rw [hstore, hreset]
  exact ⟨hval, rfl, hval₂, hreset₂⟩

/-- Witness for C1 on the empty store with a concrete draw. -/
theorem C1_witness :
    atMostOneCodePerEmail [] ∧ ("a@b.com" : String) ≠ "" ∧
    ("pw1" : String) ≠ "" ∧ ("pw2" : String) ≠ "" ∧
    (validate (forgotPasswordV1 "a@b.com" true randHalf [] cfgNone false false false).store
      "a@b.com" (jsCodeString randHalf) = true ∧
    (resetPassword "a@b.com" (jsCodeString randHalf) "pw1"
      (forgotPasswordV1 "a@b.com" true randHalf [] cfgNone false false false).store
      true true).status = 200 ∧
    validate (resetPassword "a@b.com" (jsCodeString randHalf) "pw1"
      (forgotPasswordV1 "a@b.com" true randHalf [] cfgNone false false false).store
      true true).store "a@b.com" (jsCodeString randHalf) = false ∧
    (resetPassword "a@b.com" (jsCodeString randHalf) "pw2"
      (resetPassword "a@b.com" (jsCodeString randHalf) "pw1"
        (forgotPasswordV1 "a@b.com" true randHalf [] cfgNone false false false).store
        true true).store true true).status = 400) :=
  ⟨by decide, by decide, by decide, by decide,
    C1_issue_validate_consume_once [] (by decide) "a@b.com" "pw1" "pw2"
      (by decide) (by decide) (by decide) randHalf cfgNone false false false⟩

/-- Counterexample to C5 as stated: the second `issue` draws the same random
value (`Math.random()` can repeat), so the re-issued code equals the first
one; `validate(email, oldCode)` then still succeeds and confirming with the
first code is accepted with 200, not rejected with 400.  The claim quantifies
over every pair of issued codes, so the equal pair refutes it. -/
theorem C5_counterexample :
    validate
      (forgotPasswordV1 "a@b.com" true r0
        (forgotPasswordV1 "a@b.com" true r0 [] cfgNone false false false).store
        cfgNone false false false).store
      "a@b.com" (jsCodeString r0) = true ∧
    (resetPassword "a@b.com" (jsCodeString r0) "newpw"
      (forgotPasswordV1 "a@b.com" true r0
        (forgotPasswordV1 "a@b.com" true r0 [] cfgNone false false false).store
        cfgNone false false false).store
      true true).status = 200 := by decide

/-- Claim C5 amended: issuing a second code for the same email invalidates
the first, provided the newly drawn code differs from the old one: after the
re-issue, `validate(email, oldCode)` is false and confirming with `oldCode`
is rejected with 400.  (When the second draw repeats the identical code, the
old code string still validates, as the counterexample shows.) -/
theorem C5_amended_reissue_invalidates (st : Store)
    (email oldCode newPassword : String) (he : email ≠ "") (hnp : newPassword ≠ "")
    (r : Rand) (hne : jsCodeString r ≠ oldCode) (cfg : EmailCfg) (g rk p : Bool) :
    validate (forgotPasswordV1 email true r st cfg g rk p).store email oldCode = false ∧
    (resetPassword email oldCode newPassword
      (forgotPasswordV1 email true r st cfg g rk p).store true true).status = 400 := by
  have hstore := forgotPasswordV1_store_of_found email he r st cfg g rk p
  rw [hstore]
  have hval : validate (mapSet st email (jsCodeString r)) email oldCode = false := by
    unfold validate
    rw [mapGet_mapSet_self]
    simp [hne]
  refine ⟨hval, ?_⟩
  by_cases hoc : oldCode = ""
  · unfold resetPassword
    simp [hoc]
  · unfold resetPassword
    simp [he, hnp, hoc, hval]

/-- Witness for the amended C5: first code `550000`, second draw yields
`123456`; the first code is rejected. -/
theorem C5_witness :
    ("a@b.com" : String) ≠ "" ∧ ("newpw" : String) ≠ "" ∧
    jsCodeString r0 ≠ jsCodeString randHalf ∧
    (validate
      (forgotPasswordV1 "a@b.com" true r0
        (mapSet [] "a@b.com" (jsCodeString randHalf)) cfgNone false false false).store
      "a@b.com" (jsCodeString randHalf) = false ∧
    (resetPassword "a@b.com" (jsCodeString randHalf) "newpw"
      (forgotPasswordV1 "a@b.com" true r0
        (mapSet [] "a@b.com" (jsCodeString randHalf)) cfgNone false false false).store
      true true).status = 400) :=
  ⟨by decide, by decide, by decide,
    C5_amended_reissue_invalidates (mapSet [] "a@b.com" (jsCodeString randHalf))
      "a@b.com" (jsCodeString randHalf) "newpw" (by decide) (by decide) r0
      (by decide) cfgNone false false false⟩

/-- Witness for C7 at the spec's concrete scenario email `nouser@x.com`. -/
theorem C7_witness :
    ("nouser@x.com" : String) ≠ "" ∧
    ((forgotPasswordV1 "nouser@x.com" false randHalf [] cfgBoth true true false).status = 404 ∧
    (forgotPasswordV1 "nouser@x.com" false randHalf [] cfgBoth true true false).store = [] ∧
    (forgotPasswordV1 "nouser@x.com" false randHalf [] cfgBoth true true false).devCode = none ∧
    (forgotPasswordV2 "nouser@x.com" false randHalf [] cfgBoth true true).status = 404 ∧
    (forgotPasswordV2 "nouser@x.com" false randHalf [] cfgBoth true true).store = [] ∧
    (forgotPasswordV2 "nouser@x.com" false randHalf [] cfgBoth true true).devCode = none) :=
  ⟨by decide,
    C7_unregistered_email_404 "nouser@x.com" (by decide) randHalf [] cfgBoth true true false true⟩

/-- Claim C6: the confirm endpoint requires the stored-code validation to
succeed (400 otherwise) and then an existing account (404 otherwise); only
when both hold is the password hash replaced, and the reset entry is deleted
(consume) exactly when the password update has succeeded. -/
theorem C6_confirm_validate_then_account_then_consume (st : Store)
    (email code newPassword : String) (he : email ≠ "") (hc : code ≠ "")
    (hnp : newPassword ≠ "") (userExists saveOk : Bool) :
    (validate st email code = false →
      resetPassword email code newPassword st userExists saveOk = ⟨400, st, false⟩) ∧
    (validate st email code = true → userExists = false →
      resetPassword email code newPassword st userExists saveOk = ⟨404, st, false⟩) ∧
    (validate st email code = true → userExists = true → saveOk = true →
      resetPassword email code newPassword st userExists saveOk
        = ⟨200, mapDelete st email, true⟩) ∧
    (validate st email code = true → userExists = true → saveOk = false →
      resetPassword email code newPassword st userExists saveOk
        = ⟨500, st, false⟩) := by
  refine ⟨?_, ?_, ?_, ?_⟩
  · intro hv
    unfold resetPassword
    simp [he, hc, hnp, hv]
  · intro hv hu
    subst hu
    unfold resetPassword
    simp [he, hc, hnp, hv]
  · intro hv hu hs
    subst hu; subst hs
    unfold resetPassword
    simp [he, hc, hnp, hv]
  · intro hv hu hs
    subst hu; subst hs
    unfold resetPassword
    simp [he, hc, hnp, hv]

/-- Witness for C6 on the successful branch at a concrete store. -/
theorem C6_witness :
    resetPassword "a@b.com" "123456" "pw" [("a@b.com", "123456")] true true
      = ⟨200, mapDelete [("a@b.com", "123456")] "a@b.com", true⟩ :=
  (C6_confirm_validate_then_account_then_consume [("a@b.com", "123456")]
    "a@b.com" "123456" "pw" (by decide) (by decide) (by decide) true true).2.2.1
    (by decide) rfl rfl

/-- Claim C10: when the password hash write (`user.save()`) fails, the
confirm endpoint answers 500 and the reset entry is not consumed: the store
is unchanged and still holds the same code, so a retry of confirm with the
same code (and a working save) succeeds with 200. -/
theorem C10_failed_save_keeps_entry (st : Store)
    (email code newPassword newPassword₂ : String) (he : email ≠ "")
    (hc : code ≠ "") (hnp : newPassword ≠ "") (hnp₂ : newPassword₂ ≠ "")
    (hval : validate st email code = true) :
    (resetPassword email code newPassword st true false).status = 500 ∧
    (resetPassword email code newPassword st true false).store = st ∧
    mapGet (resetPassword email code newPassword st true false).store email
      = mapGet st email ∧
    (resetPassword email code newPassword₂
      (resetPassword email code newPassword st true false).store true true).status
      = 200 := by
  have h5 : resetPassword email code newPassword st true false = ⟨500, st, false⟩ := by
    unfold resetPassword
    simp [he, hc, hnp, hval]
  rw [h5]
  refine ⟨rfl, rfl, rfl, ?_⟩
  unfold resetPassword
  simp [he, hc, hnp₂, hval]

/-- Witness for C10 at a concrete store whose entry validates. -/
theorem C10_witness :
    ("a@b.com" : String) ≠ "" ∧ ("123456" : String) ≠ "" ∧
    ("pw1" : String) ≠ "" ∧ ("pw2" : String) ≠ "" ∧
    validate [("a@b.com", "123456")] "a@b.com" "123456" = true ∧
    ((resetPassword "a@b.com" "123456" "pw1" [("a@b.com", "123456")] true false).status = 500 ∧
    (resetPassword "a@b.com" "123456" "pw1" [("a@b.com", "123456")] true false).store
      = [("a@b.com", "123456")] ∧
    mapGet (resetPassword "a@b.com" "123456" "pw1" [("a@b.com", "123456")] true false).store
      "a@b.com" = mapGet [("a@b.com", "123456")] "a@b.com" ∧
    (resetPassword "a@b.com" "123456" "pw2"
      (resetPassword "a@b.com" "123456" "pw1" [("a@b.com", "123456")] true false).store
      true true).status = 200) :=
  ⟨by decide, by decide, by decide, by decide, by decide,
    C10_failed_save_keeps_entry [("a@b.com", "123456")] "a@b.com" "123456"
      "pw1" "pw2" (by decide) (by decide) (by decide) (by decide) (by decide)⟩

/-- Counterexample to C2 as stated: in variant 1 the timer callback is
`() => resetCodes.delete(email)` — the delete is unconditional, not guarded
by comparing the stored code.  Concretely: issue stores `111111` and arms
the timer, a later issue overwrites the entry with `222222`, and the stale
timer's fire still removes it, so a code issued after the timer was armed is
deleted. -/
theorem C2_counterexample :
    mapGet (expireV1 "a@b.com"
      (mapSet (mapSet [] "a@b.com" "111111") "a@b.com" "222222")) "a@b.com"
      = none := by decide

/-- Claim C2 amended: in the second variant the timer callback compares the
stored code with the code it was armed with, so a stale timer leaves an
overwritten entry untouched and deletes exactly when the stored code still
equals the armed code; in the first variant the callback deletes the entry
for the email unconditionally. -/
theorem C2_amended_guarded_expiry (st : Store) (email armedCode c : String)
    (hget : mapGet st email = some c) (hne : c ≠ armedCode) :
    expireV2 email armedCode st = st ∧
    (∀ st₂ : Store, mapGet st₂ email = some armedCode →
      expireV2 email armedCode st₂ = mapDelete st₂ email) ∧
    expireV1 email st = mapDelete st email := by
  refine ⟨?_, ?_, rfl⟩
  · unfold expireV2
    rw [hget]
    simp [hne]
  · intro st₂ h₂
    unfold expireV2
    rw [h₂]
    simp

/-- Witness for the amended C2: an entry overwritten to `222222` survives the
stale variant-2 timer armed with `111111`. -/
theorem C2_witness :
    mapGet [("a@b.com", "222222")] "a@b.com" = some "222222" ∧
    ("222222" : String) ≠ "111111" ∧
    (expireV2 "a@b.com" "111111" [("a@b.com", "222222")] = [("a@b.com", "222222")] ∧
    (∀ st₂ : Store, mapGet st₂ "a@b.com" = some "111111" →
      expireV2 "a@b.com" "111111" st₂ = mapDelete st₂ "a@b.com") ∧
    expireV1 "a@b.com" [("a@b.com", "222222")]
      = mapDelete [("a@b.com", "222222")] "a@b.com") :=
  ⟨by decide, by decide,
    C2_amended_guarded_expiry [("a@b.com", "222222")] "a@b.com" "111111"
      "222222" (by decide) (by decide)⟩

/-- Counterexample to C3 as stated: with both providers configured and both
able to succeed, the variant-1 chain attempts only Gmail — the SMTP path —
and never attempts the primary transactional API (Resend), so the SMTP path
is used although the primary neither failed nor was unconfigured, and the
primary is not attempted first. -/
theorem C3_counterexample :
    (sendChainV1 cfgBoth true true).1 = [Provider.gmail] ∧
    cfgBoth.resendConfigured = true ∧
    Provider.resend ∉ (sendChainV1 cfgBoth true true).1 := by decide

/-- Claim C3 amended: in the second variant the chain attempts the primary
transactional API (Resend) first whenever configured, the SMTP fallback is
attempted iff Gmail is configured and Resend failed or was unconfigured,
and there is at most one fallback attempt (at most two attempts in all);
in the first variant the order is reversed: Gmail SMTP is attempted first
whenever configured, with Resend as the single fallback. -/
theorem C3_amended_provider_order (cfg : EmailCfg) (resendOk gmailOk : Bool) :
    (cfg.resendConfigured = true →
      (sendChainV2 cfg resendOk gmailOk).1.head? = some Provider.resend) ∧
    (Provider.gmail ∈ (sendChainV2 cfg resendOk gmailOk).1 ↔
      cfg.gmailConfigured = true ∧
        (cfg.resendConfigured = false ∨ resendOk = false)) ∧
    (sendChainV2 cfg resendOk gmailOk).1.count Provider.gmail ≤ 1 ∧
    (sendChainV2 cfg resendOk gmailOk).1.length ≤ 2 ∧
    (cfg.gmailConfigured = true →
      (sendChainV1 cfg gmailOk resendOk).1.head? = some Provider.gmail) := by
  obtain ⟨g, rc⟩ := cfg
  cases g <;> cases rc <;> cases resendOk <;> cases gmailOk <;> decide

/-- Witness for the amended C3: with both providers configured and Resend
failing, variant 2 attempts Resend first. -/
theorem C3_witness :
    cfgBoth.resendConfigured = true ∧
    (sendChainV2 cfgBoth false true).1.head? = some Provider.resend :=
  ⟨by decide, (C3_amended_provider_order cfgBoth false true).1 (by decide)⟩

/-- Counterexample to C4 as stated: in variant 1 with `NODE_ENV` set to
production, a request for a registered email whose delivery fails on both
configured providers is answered 500, not an acceptance. -/
theorem C4_counterexample :
    (forgotPasswordV1 "a@b.com" true r0 [] cfgBoth false false true).status
      = 500 := by decide

/-- Claim C4 amended: when delivery fails on both providers, variant 2
always reports acceptance (200) and always echoes the raw code, with no
production gate at all; variant 1 reports acceptance with the raw code only
outside production, and in production answers 500 — there delivery failure
does block the reset flow. -/
theorem C4_amended_double_failure_response (email : String) (he : email ≠ "")
    (r : Rand) (st : Store) (cfg : EmailCfg) (gmailOk resendOk : Bool)
    (hfail₁ : (sendChainV1 cfg gmailOk resendOk).2 = false)
    (hfail₂ : (sendChainV2 cfg resendOk gmailOk).2 = false) :
    (forgotPasswordV2 email true r st cfg resendOk gmailOk).status = 200 ∧
    (forgotPasswordV2 email true r st cfg resendOk gmailOk).devCode
      = some (jsCodeString r) ∧
    (forgotPasswordV1 email true r st cfg gmailOk resendOk false).status = 200 ∧
    (forgotPasswordV1 email true r st cfg gmailOk resendOk false).devCode
      = some (jsCodeString r) ∧
    (forgotPasswordV1 email true r st cfg gmailOk resendOk true).status = 500 ∧
    (forgotPasswordV1 email true r st cfg gmailOk resendOk true).devCode = none := by
  unfold forgotPasswordV1 forgotPasswordV2
  simp [he, hfail₁, hfail₂]

/-- Witness for the amended C4: both providers configured and both failing. -/
theorem C4_witness :
    ("a@b.com" : String) ≠ "" ∧
    (sendChainV1 cfgBoth false false).2 = false ∧
    (sendChainV2 cfgBoth false false).2 = false ∧
    ((forgotPasswordV2 "a@b.com" true randHalf [] cfgBoth false false).status = 200 ∧
    (forgotPasswordV2 "a@b.com" true randHalf [] cfgBoth false false).devCode
      = some (jsCodeString randHalf) ∧
    (forgotPasswordV1 "a@b.com" true randHalf [] cfgBoth false false false).status = 200 ∧
    (forgotPasswordV1 "a@b.com" true randHalf [] cfgBoth false false false).devCode
      = some (jsCodeString randHalf) ∧
    (forgotPasswordV1 "a@b.com" true randHalf [] cfgBoth false false true).status = 500 ∧
    (forgotPasswordV1 "a@b.com" true randHalf [] cfgBoth false false true).devCode = none) :=
  ⟨by decide, by decide, by decide,
    C4_amended_double_failure_response "a@b.com" (by decide) randHalf [] cfgBoth
      false false (by decide) (by decide)⟩

end QuickCart
